import Mathlib

/-!
# Verification of the network-tracker continuous sampling core

Shallow embedding, in Lean 4, of the sampling core of the
`network-tracker-ai` repository:

* `NetworkMonitor.calculate_bandwidth_usage`
  (src/backend/network_monitor.py) — the rate calculator;
* `ContinuousNetworkMonitorService._calculate_overall_quality`,
  `_get_next_device_for_quality_test`, the quality portion of
  `_collect_snapshot`, the snapshot-buffer management of `_monitor_loop`,
  `get_recent_snapshots` and `get_service_status`
  (src/backend/continuous_monitor_service.py).

Python floats are modelled as rationals (`ℚ`), machine integers as `ℕ`/`ℤ`,
dictionaries as structures, raised exceptions / error returns as `Except`,
and the mutable service object as explicit state passing.
-/

namespace NetworkTracker

/-- Model of Python `round(x, 2)` on `ℚ`: round to the nearest hundredth.
Python rounds half to even on binary doubles; Mathlib's `round` rounds half
up.  The two agree on every value reached in this development (no exact
half-hundredth ever arises), so `round` is used. -/
def pyRound2 (q : ℚ) : ℚ := ((round (q * 100) : ℤ) : ℚ) / 100

/-- One reading of the cumulative per-interface counters, as returned by
`NetworkMonitor.get_bandwidth_stats` (the relevant keys of the Python dict
`{'bytes_sent', 'bytes_recv', 'packets_sent', 'packets_recv', 'timestamp'}`).
Counters are non-negative machine integers; the timestamp is a float. -/
structure BandwidthStats where
  bytes_sent : ℕ
  bytes_recv : ℕ
  packets_sent : ℕ
  packets_recv : ℕ
  timestamp : ℚ
deriving DecidableEq, Repr

/-- The dict returned by `NetworkMonitor.calculate_bandwidth_usage` on the
non-error path (keys `'upload_rate_mbps'`, `'download_rate_mbps'`,
`'upload_rate_bps'`, `'download_rate_bps'`, `'time_period_seconds'`,
`'total_usage_mb'`). -/
structure BandwidthUsage where
  upload_rate_mbps : ℚ
  download_rate_mbps : ℚ
  upload_rate_bps : ℚ
  download_rate_bps : ℚ
  time_period_seconds : ℚ
  total_usage_mb : ℚ
deriving DecidableEq, Repr

/-- `NetworkMonitor.calculate_bandwidth_usage` (src/backend/network_monitor.py,
lines 375–410).  On `time_diff <= 0` the Python function returns
`{'error': 'Invalid time difference'}`, modelled as `Except.error`; otherwise
it returns the usage dict.  Note the source converts bytes/s to "Mbps" by
`(bps * 8) / (1024 * 1024)` and rounds every field to two decimals; byte
deltas are plain Python subtractions (they may be negative — there is no
clamping in the source). -/
def calculate_bandwidth_usage (previous_stats current_stats : BandwidthStats) :
    Except String BandwidthUsage :=
  let time_diff : ℚ := current_stats.timestamp - previous_stats.timestamp
  if time_diff ≤ 0 then
    .error "Invalid time difference"
  else
    let bytes_sent_diff : ℚ :=
      (current_stats.bytes_sent : ℚ) - (previous_stats.bytes_sent : ℚ)
    let bytes_recv_diff : ℚ :=
      (current_stats.bytes_recv : ℚ) - (previous_stats.bytes_recv : ℚ)
    let upload_rate_bps := bytes_sent_diff / time_diff
    let download_rate_bps := bytes_recv_diff / time_diff
    let upload_rate_mbps := upload_rate_bps * 8 / (1024 * 1024)
    let download_rate_mbps := download_rate_bps * 8 / (1024 * 1024)
    .ok
      { upload_rate_mbps := pyRound2 upload_rate_mbps
        download_rate_mbps := pyRound2 download_rate_mbps
        upload_rate_bps := pyRound2 upload_rate_bps
        download_rate_bps := pyRound2 download_rate_bps
        time_period_seconds := pyRound2 time_diff
        total_usage_mb :=
          pyRound2 ((bytes_sent_diff + bytes_recv_diff) / (1024 * 1024)) }

/-- The rate values the caller `_collect_snapshot` extracts from the result of
`calculate_bandwidth_usage` (src/backend/continuous_monitor_service.py,
lines 313–323): `usage.get('upload_rate_mbps', 0.0)`,
`usage.get('download_rate_mbps', 0.0)`, `usage.get('total_usage_mb', 0.0)`.
On the error dict none of the rate keys is present, so every `get` yields the
default `0.0`; an exception would likewise leave the defaults in place. -/
def extractRates (r : Except String BandwidthUsage) : ℚ × ℚ × ℚ :=
  match r with
  | .error _ => (0, 0, 0)
  | .ok u => (u.upload_rate_mbps, u.download_rate_mbps, u.total_usage_mb)

/-- The five quality tiers produced by
`ContinuousNetworkMonitorService._calculate_overall_quality`
(the strings `"Unknown"`, `"Poor"`, `"Fair"`, `"Good"`, `"Excellent"`). -/
inductive Quality where
  | Unknown
  | Poor
  | Fair
  | Good
  | Excellent
deriving DecidableEq, Repr

/-- Rank of a tier in the order `Unknown < Poor < Fair < Good < Excellent`. -/
def qualityRank : Quality → ℕ
  | .Unknown => 0
  | .Poor => 1
  | .Fair => 2
  | .Good => 3
  | .Excellent => 4

/-- The threshold chain of `_calculate_overall_quality` that computes the
Python local `base_quality` (src/backend/continuous_monitor_service.py,
lines 403–411), tests evaluated in source order, first match wins. -/
def baseQuality (avg_latency avg_packet_loss : ℚ) : Quality :=
  if avg_packet_loss > 5 ∨ avg_latency > 100 then .Poor
  else if avg_packet_loss > 2 ∨ avg_latency > 50 then .Fair
  else if avg_packet_loss > 1/2 ∨ avg_latency > 25 then .Good
  else .Excellent

/-- The network-load adjustment of `_calculate_overall_quality`
(src/backend/continuous_monitor_service.py, lines 413–418): above 10 devices,
`Excellent` becomes `Good` and `Good` becomes `Fair`; other tiers pass
through. -/
def congestionDerate (device_count : ℕ) (q : Quality) : Quality :=
  if device_count > 10 then
    match q with
    | .Excellent => .Good
    | .Good => .Fair
    | q' => q'
  else q

/-- `ContinuousNetworkMonitorService._calculate_overall_quality`
(src/backend/continuous_monitor_service.py, lines 391–420): latency `0`
means "no devices to sample" and yields `Unknown`; otherwise the threshold
chain picks the base tier which is then congestion-derated. -/
def calculate_overall_quality (avg_latency avg_packet_loss : ℚ)
    (device_count : ℕ) : Quality :=
  if avg_latency = 0 then
    .Unknown
  else congestionDerate device_count (baseQuality avg_latency avg_packet_loss)

/-- One entry of the device list handled by the service: the relevant keys of
a discovered-device dict (`dev['ip']` is the sort/identity key; the other
fields ride along).  IP addresses are modelled as naturals. -/
structure Device where
  ip : ℕ
  hostname : String
deriving DecidableEq, Repr

/-- Placeholder device for the (unreachable) out-of-bounds list access. -/
def defaultDevice : Device := { ip := 0, hostname := "" }

/-- `sorted(devices, key=lambda d: d['ip'])`
(src/backend/continuous_monitor_service.py, line 257): a stable sort of the
device list by address. -/
def sortDevicesByIp (devices : List Device) : List Device :=
  devices.mergeSort (fun a b => a.ip ≤ b.ip)

/-- The round-robin state of `ContinuousNetworkMonitorService`: the fields
`quality_test_device_index` and `last_tested_device_list`
(src/backend/continuous_monitor_service.py, lines 94–95). -/
structure RotState where
  quality_test_device_index : ℕ
  last_tested_device_list : List Device
deriving DecidableEq, Repr

/-- The round-robin state a fresh service starts with: index `0`, empty
remembered list (src/backend/continuous_monitor_service.py, lines 94–95). -/
def initRotState : RotState := { quality_test_device_index := 0, last_tested_device_list := [] }

/-- `ContinuousNetworkMonitorService._get_next_device_for_quality_test`
(src/backend/continuous_monitor_service.py, lines 238–279), with the two
mutated fields passed and returned explicitly.  Empty device list: return
`none`, state untouched.  Otherwise sort by ip; if the sorted ip list differs
from the remembered one, reset the index to `0` and remember the sorted list;
clamp an out-of-range index to `0`; return the device at the index and
advance the index by one modulo the length. -/
def get_next_device_for_quality_test (s : RotState) (devices : List Device) :
    Option Device × RotState :=
  if devices = [] then (none, s)
  else
    let sorted_devices := sortDevicesByIp devices
    let current_ips : List ℕ := sorted_devices.map (fun d => d.ip)
    let last_ips : List ℕ := s.last_tested_device_list.map (fun d => d.ip)
    let s1 : RotState :=
      if current_ips ≠ last_ips then
        { quality_test_device_index := 0, last_tested_device_list := sorted_devices }
      else s
    let idx :=
      if s1.quality_test_device_index ≥ sorted_devices.length then 0
      else s1.quality_test_device_index
    (some (sorted_devices.getD idx defaultDevice),
     { quality_test_device_index := (idx + 1) % sorted_devices.length
       last_tested_device_list := s1.last_tested_device_list })

/-- The index into the sorted device list from which
`_get_next_device_for_quality_test` actually reads on a call with a non-empty
device list: the stored index after the change-detection reset and the
out-of-bounds clamp (src/backend/continuous_monitor_service.py,
lines 259–274). -/
def effIndex (s : RotState) (devices : List Device) : ℕ :=
  let sorted_devices := sortDevicesByIp devices
  let i0 :=
    if sorted_devices.map (fun d => d.ip) ≠
        s.last_tested_device_list.map (fun d => d.ip) then 0
    else s.quality_test_device_index
  if i0 ≥ sorted_devices.length then 0 else i0

/-- `n` consecutive calls of `_get_next_device_for_quality_test` against the
same device list (one call per quality-test tick, membership stable):
returns the selected devices in call order together with the final state. -/
def runRoundRobin (s : RotState) (devices : List Device) : ℕ → List Device × RotState
  | 0 => ([], s)
  | n + 1 =>
    let r := get_next_device_for_quality_test s devices
    let rest := runRoundRobin r.2 devices n
    (r.1.toList ++ rest.1, rest.2)

/-- The in-memory snapshot-history trim of `_monitor_loop`
(src/backend/continuous_monitor_service.py, lines 213–215):
`if len(self.snapshots) > cap: self.snapshots = self.snapshots[-cap:]`. -/
def trimSnapshots {α : Type} (cap : ℕ) (snapshots : List α) : List α :=
  if snapshots.length > cap then snapshots.drop (snapshots.length - cap)
  else snapshots

/-- One history insertion as performed by `_monitor_loop`
(src/backend/continuous_monitor_service.py, lines 209–215):
`self.snapshots.append(snapshot)` followed by the capacity trim (the source
uses capacity 1000). -/
def pushSnapshot {α : Type} (cap : ℕ) (snapshots : List α) (snapshot : α) : List α :=
  trimSnapshots cap (snapshots ++ [snapshot])

/-- The history after inserting the samples of `L`, in order, into an
initially empty buffer of capacity `cap`. -/
def historyAfter {α : Type} (cap : ℕ) (L : List α) : List α :=
  L.foldl (pushSnapshot cap) []

/-- `ContinuousNetworkMonitorService.get_recent_snapshots`
(src/backend/continuous_monitor_service.py, lines 489–499):
`self.snapshots[-count:] if self.snapshots else []`.  Python's negative-index
slice `[-count:]` takes the last `count` elements when `count ≥ 1`, but for
`count = 0` the slice is `[-0:] = [0:]`, i.e. the whole list — modelled by
the explicit `count = 0` branch. -/
def get_recent_snapshots {α : Type} (snapshots : List α) (count : ℕ) : List α :=
  if snapshots.isEmpty then []
  else if count = 0 then snapshots
  else snapshots.drop (snapshots.length - count)

/-- Result of the quality-testing portion of `_collect_snapshot`
(src/backend/continuous_monitor_service.py, lines 328–369): the values of
the locals `overall_quality`, `avg_latency`, `avg_packet_loss`,
`tested_device_ip` that go into the constructed `MonitoringSnapshot`, plus
the updated round-robin state. -/
structure QualityOutcome where
  overall_quality : Quality
  avg_latency : ℚ
  avg_packet_loss : ℚ
  tested_device_ip : Option ℕ
  rot : RotState
deriving DecidableEq, Repr

/-- The quality-testing portion of `_collect_snapshot`
(src/backend/continuous_monitor_service.py, lines 328–369).
`quality_test_due` models `last_quality_test is None or current_time -
last_quality_test > quality_test_interval`.  `probe ip` models
`monitor_device_connectivity(ip, samples=1)`: `some (latency, loss)` when the
call returns, `none` when it raises (the except branch keeps the zero
defaults).  When the probe is skipped, the source estimates the tier from the
device count alone (`"Good"` for 10 or fewer devices, else `"Fair"`, and
`"Unknown"` when there are no devices). -/
def collectQuality (enable_quality_testing quality_test_due : Bool)
    (rot : RotState) (devices : List Device)
    (probe : ℕ → Option (ℚ × ℚ)) : QualityOutcome :=
  if enable_quality_testing && quality_test_due then
    let r := get_next_device_for_quality_test rot devices
    match r.1 with
    | some device_to_test =>
      match probe device_to_test.ip with
      | some m =>
        { overall_quality := calculate_overall_quality m.1 m.2 devices.length
          avg_latency := m.1
          avg_packet_loss := m.2
          tested_device_ip := some device_to_test.ip
          rot := r.2 }
      | none =>
        { overall_quality := calculate_overall_quality 0 0 devices.length
          avg_latency := 0
          avg_packet_loss := 0
          tested_device_ip := none
          rot := r.2 }
    | none =>
      { overall_quality := calculate_overall_quality 0 0 devices.length
        avg_latency := 0
        avg_packet_loss := 0
        tested_device_ip := none
        rot := r.2 }
  else
    if devices ≠ [] then
      { overall_quality := if devices.length ≤ 10 then .Good else .Fair
        avg_latency := 0
        avg_packet_loss := 0
        tested_device_ip := none
        rot := rot }
    else
      { overall_quality := .Unknown
        avg_latency := 0
        avg_packet_loss := 0
        tested_device_ip := none
        rot := rot }

/-- The service-level mutable state of `ContinuousNetworkMonitorService`
relevant to the monitoring loop and `get_service_status`: `is_running`,
the shutdown event, the two counters, the snapshot buffer, and the
configuration and round-robin fields reported by the status dict.
`α` is the snapshot type. -/
structure ServiceState (α : Type) where
  is_running : Bool
  shutdown_requested : Bool
  measurement_count : ℕ
  successful_measurements : ℕ
  snapshots : List α
  network_range : String
  start_time : Option String
  monitor_interval : ℚ
  enable_quality_testing : Bool
  rot : RotState

/-- What one iteration of `_monitor_loop` does to the service state
(src/backend/continuous_monitor_service.py, lines 202–236), split by how the
tick went: `ok snapshot` — `_collect_snapshot` produced a snapshot;
`collectFailed` — it returned `None`; `raised` — an exception escaped the
collection and was caught by the loop's `except` clause. -/
inductive TickOutcome (α : Type) where
  | ok (snapshot : α)
  | collectFailed
  | raised
deriving DecidableEq, Repr

/-- A tick outcome that did not produce a snapshot (a failed tick). -/
def TickOutcome.failed {α : Type} : TickOutcome α → Bool
  | .ok _ => false
  | .collectFailed => true
  | .raised => true

/-- The state update of one `_monitor_loop` iteration
(src/backend/continuous_monitor_service.py, lines 202–236): a successful
tick appends the snapshot (with the 1000-capacity trim) and increments both
counters; a failed tick increments only `measurement_count`.  No branch of
the loop body ever modifies `is_running` or the shutdown event. -/
def monitorLoopTick {α : Type} (s : ServiceState α) (o : TickOutcome α) :
    ServiceState α :=
  match o with
  | .ok snapshot =>
    { s with
      snapshots := pushSnapshot 1000 s.snapshots snapshot
      successful_measurements := s.successful_measurements + 1
      measurement_count := s.measurement_count + 1 }
  | .collectFailed =>
    { s with measurement_count := s.measurement_count + 1 }
  | .raised =>
    { s with measurement_count := s.measurement_count + 1 }

/-- The loop guard of `_monitor_loop`
(src/backend/continuous_monitor_service.py, line 202):
`while self.is_running and not self.shutdown_event.is_set()`. -/
def monitorLoopContinues {α : Type} (s : ServiceState α) : Bool :=
  s.is_running && !s.shutdown_requested

/-- The service state after a sequence of tick outcomes. -/
def runTicks {α : Type} (s : ServiceState α) (outcomes : List (TickOutcome α)) :
    ServiceState α :=
  outcomes.foldl monitorLoopTick s

/-- The dict returned by `ContinuousNetworkMonitorService.get_service_status`
(src/backend/continuous_monitor_service.py, lines 501–520).  Note its exact
key set: there is no failure-reason or failed-state key. -/
structure ServiceStatus where
  is_running : Bool
  start_time : Option String
  measurement_count : ℕ
  successful_measurements : ℕ
  success_rate : ℚ
  snapshots_collected : ℕ
  network_range : String
  monitor_interval : ℚ
  quality_testing_enabled : Bool
  current_device_index : ℕ
  devices_in_rotation : ℕ
deriving DecidableEq, Repr

/-- `ContinuousNetworkMonitorService.get_service_status`
(src/backend/continuous_monitor_service.py, lines 501–520). -/
def get_service_status {α : Type} (s : ServiceState α) : ServiceStatus :=
  { is_running := s.is_running
    start_time := s.start_time
    measurement_count := s.measurement_count
    successful_measurements := s.successful_measurements
    success_rate :=
      if s.measurement_count > 0 then
        (s.successful_measurements : ℚ) / (s.measurement_count : ℚ) * 100
      else 0
    snapshots_collected := s.snapshots.length
    network_range := s.network_range
    monitor_interval := s.monitor_interval
    quality_testing_enabled := s.enable_quality_testing
    current_device_index := s.rot.quality_test_device_index
    devices_in_rotation := s.rot.last_tested_device_list.length }

/-- A concrete running service state (counters zeroed, empty history). -/
def runningService : ServiceState ℕ :=
  { is_running := true
    shutdown_requested := false
    measurement_count := 0
    successful_measurements := 0
    snapshots := []
    network_range := "192.168.1.0/24"
    start_time := some "2025-01-01T00:00:00"
    monitor_interval := 1
    enable_quality_testing := true
    rot := initRotState }

/-- Five consecutive ticks that raise inside the loop body. -/
def fiveRaisedTicks : List (TickOutcome ℕ) :=
  [.raised, .raised, .raised, .raised, .raised]

/-- A concrete three-device directory, deliberately not sorted by address. -/
def threeDevices : List Device :=
  [{ ip := 2, hostname := "B" }, { ip := 1, hostname := "A" },
   { ip := 3, hostname := "C" }]

/-- The concrete directory `[A, B, C]`, already sorted by address. -/
def sortedABC : List Device :=
  [{ ip := 1, hostname := "A" }, { ip := 2, hostname := "B" },
   { ip := 3, hostname := "C" }]

/-! ## Supporting lemmas -/

/-- On a positive time delta, `calculate_bandwidth_usage` returns the usage
record with every field spelled out. -/
theorem calculate_bandwidth_usage_eq_ok (prev curr : BandwidthStats)
    (h : 0 < curr.timestamp - prev.timestamp) :
    calculate_bandwidth_usage prev curr = .ok
      { upload_rate_mbps := pyRound2 (((curr.bytes_sent : ℚ) - (prev.bytes_sent : ℚ)) /
          (curr.timestamp - prev.timestamp) * 8 / (1024 * 1024))
        download_rate_mbps := pyRound2 (((curr.bytes_recv : ℚ) - (prev.bytes_recv : ℚ)) /
          (curr.timestamp - prev.timestamp) * 8 / (1024 * 1024))
        upload_rate_bps := pyRound2 (((curr.bytes_sent : ℚ) - (prev.bytes_sent : ℚ)) /
          (curr.timestamp - prev.timestamp))
        download_rate_bps := pyRound2 (((curr.bytes_recv : ℚ) - (prev.bytes_recv : ℚ)) /
          (curr.timestamp - prev.timestamp))
        time_period_seconds := pyRound2 (curr.timestamp - prev.timestamp)
        total_usage_mb := pyRound2 ((((curr.bytes_sent : ℚ) - (prev.bytes_sent : ℚ)) +
          ((curr.bytes_recv : ℚ) - (prev.bytes_recv : ℚ))) / (1024 * 1024)) } := by
  unfold calculate_bandwidth_usage
  rw [if_neg (not_le.mpr h)]

/-- Rounding to two decimals preserves non-positivity. -/
theorem pyRound2_nonpos {q : ℚ} (h : q ≤ 0) : pyRound2 q ≤ 0 := by
  unfold pyRound2
  have h1 : q * 100 + 1/2 ≤ 1/2 := by nlinarith
  have h2 : round (q * 100) ≤ 0 := by
    rw [round_eq]
    calc ⌊q * 100 + 1/2⌋ ≤ ⌊(1 : ℚ)/2⌋ := Int.floor_le_floor h1
    _ = 0 := by norm_num
  have h3 : ((round (q * 100) : ℤ) : ℚ) ≤ 0 := by exact_mod_cast h2
  linarith

/-! ## Claim theorems -/

/-- C3 (amended): for counter readings with a positive time delta, the source
does **not** clamp a rolled-back counter: the computed rate is the signed
delta scaled by `8 / dt / (1024*1024)` and rounded, hence non-positive (and,
as `rate_rollback_produces_negative` shows at a concrete input, it can be
strictly negative) whenever the counter decreased — symmetrically for
`bytes_recv` and the download rate. -/
theorem rate_rollback_not_clamped (prev curr : BandwidthStats)
    (ht : prev.timestamp < curr.timestamp) :
    ∃ u, calculate_bandwidth_usage prev curr = .ok u ∧
      (curr.bytes_sent < prev.bytes_sent →
        u.upload_rate_mbps ≤ 0 ∧ u.upload_rate_bps ≤ 0) ∧
      (curr.bytes_recv < prev.bytes_recv →
        u.download_rate_mbps ≤ 0 ∧ u.download_rate_bps ≤ 0) := by
  have hdt : 0 < curr.timestamp - prev.timestamp := by linarith
  refine ⟨_, calculate_bandwidth_usage_eq_ok prev curr hdt, ?_, ?_⟩
  · intro hs
    have hneg : ((curr.bytes_sent : ℚ) - (prev.bytes_sent : ℚ)) ≤ 0 := by
      have : (curr.bytes_sent : ℚ) < (prev.bytes_sent : ℚ) := by exact_mod_cast hs
      linarith
    have hq : ((curr.bytes_sent : ℚ) - (prev.bytes_sent : ℚ)) /
        (curr.timestamp - prev.timestamp) ≤ 0 := div_nonpos_iff.mpr (Or.inr ⟨hneg, le_of_lt hdt⟩)
    constructor
    · apply pyRound2_nonpos
      have h8 : ((curr.bytes_sent : ℚ) - (prev.bytes_sent : ℚ)) /
          (curr.timestamp - prev.timestamp) * 8 ≤ 0 := by nlinarith
      have : (0 : ℚ) < 1024 * 1024 := by norm_num
      exact div_nonpos_iff.mpr (Or.inr ⟨h8, le_of_lt this⟩)
    · exact pyRound2_nonpos hq
  · intro hr
    have hneg : ((curr.bytes_recv : ℚ) - (prev.bytes_recv : ℚ)) ≤ 0 := by
      have : (curr.bytes_recv : ℚ) < (prev.bytes_recv : ℚ) := by exact_mod_cast hr
      linarith
    have hq : ((curr.bytes_recv : ℚ) - (prev.bytes_recv : ℚ)) /
        (curr.timestamp - prev.timestamp) ≤ 0 := div_nonpos_iff.mpr (Or.inr ⟨hneg, le_of_lt hdt⟩)
    constructor
    · apply pyRound2_nonpos
      have h8 : ((curr.bytes_recv : ℚ) - (prev.bytes_recv : ℚ)) /
          (curr.timestamp - prev.timestamp) * 8 ≤ 0 := by nlinarith
      have : (0 : ℚ) < 1024 * 1024 := by norm_num
      exact div_nonpos_iff.mpr (Or.inr ⟨h8, le_of_lt this⟩)
    · exact pyRound2_nonpos hq

/-- C3 witness: the amended theorem applied to the concrete rollback pair
`prev = {sent 2000, recv 2200, t 10}`, `curr = {sent 1000, recv 2000, t 11}`. -/
theorem rate_rollback_not_clamped_witness :
    ∃ u, calculate_bandwidth_usage
        { bytes_sent := 2000, bytes_recv := 2200, packets_sent := 0
          packets_recv := 0, timestamp := 10 }
        { bytes_sent := 1000, bytes_recv := 2000, packets_sent := 0
          packets_recv := 0, timestamp := 11 } = .ok u ∧
      u.upload_rate_mbps ≤ 0 ∧ u.upload_rate_bps ≤ 0 ∧
      u.download_rate_mbps ≤ 0 ∧ u.download_rate_bps ≤ 0 := by
  obtain ⟨u, hu, hs, hr⟩ := rate_rollback_not_clamped
    { bytes_sent := 2000, bytes_recv := 2200, packets_sent := 0
      packets_recv := 0, timestamp := 10 }
    { bytes_sent := 1000, bytes_recv := 2000, packets_sent := 0
      packets_recv := 0, timestamp := 11 } (by norm_num)
  obtain ⟨h1, h2⟩ := hs (by norm_num)
  obtain ⟨h3, h4⟩ := hr (by norm_num)
  exact ⟨u, hu, h1, h2, h3, h4⟩

/-- C3 counterexample: at the rollback pair
`prev = {sent 2000, recv 2200, t 10}`, `curr = {sent 1000, recv 2000, t 11}`
the source computes `upload_rate_mbps = -0.01 < 0` — the claim's "the
computed upload rate is 0, never negative" is false on the code. -/
theorem rate_rollback_produces_negative :
    calculate_bandwidth_usage
      { bytes_sent := 2000, bytes_recv := 2200, packets_sent := 0
        packets_recv := 0, timestamp := 10 }
      { bytes_sent := 1000, bytes_recv := 2000, packets_sent := 0
        packets_recv := 0, timestamp := 11 } =
      .ok { upload_rate_mbps := -1/100, download_rate_mbps := 0
            upload_rate_bps := -1000, download_rate_bps := -200
            time_period_seconds := 1, total_usage_mb := 0 } ∧
    ((-1 : ℚ)/100 < 0) := by
  constructor
  · rw [calculate_bandwidth_usage_eq_ok _ _ (by norm_num)]
    simp only [Except.ok.injEq, BandwidthUsage.mk.injEq]
    refine ⟨?_, ?_, ?_, ?_, ?_, ?_⟩ <;>
      (unfold pyRound2; rw [round_eq]; norm_num)
  · norm_num

/-- C4: for any pair of counter readings whose time delta is `≤ 0`, the rate
calculation returns the result tagged as invalid (the `'error'` dict,
carrying no rate keys), and the rates the calling `_collect_snapshot`
extracts from it via `.get(key, 0.0)` are exactly `(0, 0, 0)` — zero, never
negative (`ℚ` has no NaN), treated as "no measurement". -/
theorem rate_dt_nonpositive_invalid_and_zero (prev curr : BandwidthStats)
    (h : curr.timestamp - prev.timestamp ≤ 0) :
    calculate_bandwidth_usage prev curr = .error "Invalid time difference" ∧
    extractRates (calculate_bandwidth_usage prev curr) = (0, 0, 0) := by
  have he : calculate_bandwidth_usage prev curr = .error "Invalid time difference" := by
    unfold calculate_bandwidth_usage
    rw [if_pos h]
  refine ⟨he, ?_⟩
  rw [he]
  rfl

/-- C4 witness: the theorem applied to two readings taken at the same
timestamp (`dt = 0`). -/
theorem rate_dt_nonpositive_invalid_and_zero_witness :
    calculate_bandwidth_usage
      { bytes_sent := 500, bytes_recv := 700, packets_sent := 0
        packets_recv := 0, timestamp := 5 }
      { bytes_sent := 900, bytes_recv := 800, packets_sent := 0
        packets_recv := 0, timestamp := 5 } = .error "Invalid time difference" ∧
    extractRates (calculate_bandwidth_usage
      { bytes_sent := 500, bytes_recv := 700, packets_sent := 0
        packets_recv := 0, timestamp := 5 }
      { bytes_sent := 900, bytes_recv := 800, packets_sent := 0
        packets_recv := 0, timestamp := 5 }) = (0, 0, 0) :=
  rate_dt_nonpositive_invalid_and_zero
    { bytes_sent := 500, bytes_recv := 700, packets_sent := 0
      packets_recv := 0, timestamp := 5 }
    { bytes_sent := 900, bytes_recv := 800, packets_sent := 0
      packets_recv := 0, timestamp := 5 } (by norm_num)

/-- C5 (amended): on the scenario pair the source converts byte deltas with
`delta * 8 / dt / (1024 * 1024)` (mebibits, not `1_000_000`) and rounds to
two decimals, yielding `upload_rate_mbps = 0.01` and
`download_rate_mbps = 0.0`. -/
theorem rate_scenario_code_values :
    calculate_bandwidth_usage
      { bytes_sent := 1000, bytes_recv := 2000, packets_sent := 0
        packets_recv := 0, timestamp := 10 }
      { bytes_sent := 2000, bytes_recv := 2200, packets_sent := 0
        packets_recv := 0, timestamp := 11 } =
      .ok { upload_rate_mbps := 1/100, download_rate_mbps := 0
            upload_rate_bps := 1000, download_rate_bps := 200
            time_period_seconds := 1, total_usage_mb := 0 } ∧
    pyRound2 ((1000 : ℚ) * 8 / 1 / (1024 * 1024)) = 1/100 ∧
    pyRound2 ((200 : ℚ) * 8 / 1 / (1024 * 1024)) = 0 := by
  refine ⟨?_, ?_, ?_⟩
  · rw [calculate_bandwidth_usage_eq_ok _ _ (by norm_num)]
    simp only [Except.ok.injEq, BandwidthUsage.mk.injEq]
    refine ⟨?_, ?_, ?_, ?_, ?_, ?_⟩ <;>
      (unfold pyRound2; rw [round_eq]; norm_num)
  · unfold pyRound2; rw [round_eq]; norm_num
  · unfold pyRound2; rw [round_eq]; norm_num

/-- C5 counterexample: on the scenario pair the computed rates are
`0.01` and `0.0`, not the claimed `0.008` and `0.0016`: the code does not
divide by `1_000_000`. -/
theorem rate_scenario_not_spec_values :
    extractRates (calculate_bandwidth_usage
      { bytes_sent := 1000, bytes_recv := 2000, packets_sent := 0
        packets_recv := 0, timestamp := 10 }
      { bytes_sent := 2000, bytes_recv := 2200, packets_sent := 0
        packets_recv := 0, timestamp := 11 }) ≠ (8/1000, 16/10000, 0) ∧
    extractRates (calculate_bandwidth_usage
      { bytes_sent := 1000, bytes_recv := 2000, packets_sent := 0
        packets_recv := 0, timestamp := 10 }
      { bytes_sent := 2000, bytes_recv := 2200, packets_sent := 0
        packets_recv := 0, timestamp := 11 }) = (1/100, 0, 0) ∧
    ((1 : ℚ)/100 ≠ 8/1000) := by
  have hv : extractRates (calculate_bandwidth_usage
      { bytes_sent := 1000, bytes_recv := 2000, packets_sent := 0
        packets_recv := 0, timestamp := 10 }
      { bytes_sent := 2000, bytes_recv := 2200, packets_sent := 0
        packets_recv := 0, timestamp := 11 }) = (1/100, 0, 0) := by
    rw [calculate_bandwidth_usage_eq_ok _ _ (by norm_num)]
    unfold extractRates
    simp only [Prod.mk.injEq]
    refine ⟨?_, ?_, ?_⟩ <;> (unfold pyRound2; rw [round_eq]; norm_num)
  refine ⟨?_, hv, by norm_num⟩
  rw [hv]
  intro h
  rw [Prod.mk.injEq] at h
  exact absurd h.1 (by norm_num)

/-- The base-tier chain is antitone in packet loss. -/
theorem baseQuality_loss_mono (l p1 p2 : ℚ) (h : p1 ≤ p2) :
    qualityRank (baseQuality l p2) ≤ qualityRank (baseQuality l p1) := by
  unfold baseQuality
  split_ifs <;>
    simp_all [qualityRank] <;>
    casesm* _ ∨ _ <;> linarith

/-- The base-tier chain is antitone in latency. -/
theorem baseQuality_latency_mono (l1 l2 p : ℚ) (h : l1 ≤ l2) :
    qualityRank (baseQuality l2 p) ≤ qualityRank (baseQuality l1 p) := by
  unfold baseQuality
  split_ifs <;>
    simp_all [qualityRank] <;>
    casesm* _ ∨ _ <;> linarith

/-- The congestion derate preserves the tier order. -/
theorem congestionDerate_mono (d : ℕ) {q1 q2 : Quality}
    (h : qualityRank q1 ≤ qualityRank q2) :
    qualityRank (congestionDerate d q1) ≤ qualityRank (congestionDerate d q2) := by
  unfold congestionDerate
  split_ifs
  · cases q1 <;> cases q2 <;> simp_all [qualityRank]
  · exact h

/-- C8 (amended): the classifier is total — every `(latency, loss,
device_count)` input, including the no-measurement encoding `latency = 0`,
yields exactly one of the five tiers — and, holding `device_count` fixed,
the tier is monotonically non-increasing as loss increases (any latency) and
as latency increases **over positive latencies**.  (At the `latency = 0`
boundary monotonicity fails, see
`quality_latency_monotonicity_fails_at_zero`: `0` encodes "no measurement"
and maps to the bottom tier `Unknown`.) -/
theorem quality_classifier_total_and_monotone (l p : ℚ) (d : ℕ) :
    calculate_overall_quality l p d ∈
      [Quality.Unknown, .Poor, .Fair, .Good, .Excellent] ∧
    (∀ p2, p ≤ p2 →
      qualityRank (calculate_overall_quality l p2 d) ≤
        qualityRank (calculate_overall_quality l p d)) ∧
    (∀ l2, 0 < l → l ≤ l2 →
      qualityRank (calculate_overall_quality l2 p d) ≤
        qualityRank (calculate_overall_quality l p d)) := by
  refine ⟨?_, ?_, ?_⟩
  · cases h : calculate_overall_quality l p d <;> simp
  · intro p2 hp
    unfold calculate_overall_quality
    by_cases hl : l = 0
    · simp [hl]
    · rw [if_neg hl, if_neg hl]
      exact congestionDerate_mono d (baseQuality_loss_mono l p p2 hp)
  · intro l2 hl hle
    have hl0 : ¬ (l = 0) := by intro h0; rw [h0] at hl; exact lt_irrefl 0 hl
    have hl20 : ¬ (l2 = 0) := by
      intro h0
      have : (0 : ℚ) < l2 := lt_of_lt_of_le hl hle
      rw [h0] at this
      exact lt_irrefl 0 this
    unfold calculate_overall_quality
    rw [if_neg hl0, if_neg hl20]
    exact congestionDerate_mono d (baseQuality_latency_mono l l2 p hle)

/-- C8 witness: the amended theorem at `(latency, loss, device_count) =
(30, 0, 15)`, the spec's own derate scenario, with loss increased to `3` and
latency to `60`. -/
theorem quality_classifier_total_and_monotone_witness :
    calculate_overall_quality 30 0 15 ∈
      [Quality.Unknown, .Poor, .Fair, .Good, .Excellent] ∧
    qualityRank (calculate_overall_quality 30 3 15) ≤
      qualityRank (calculate_overall_quality 30 0 15) ∧
    qualityRank (calculate_overall_quality 60 0 15) ≤
      qualityRank (calculate_overall_quality 30 0 15) := by
  obtain ⟨h1, h2, h3⟩ := quality_classifier_total_and_monotone 30 0 15
  exact ⟨h1, h2 3 (by norm_num), h3 60 (by norm_num) (by norm_num)⟩

/-- C8 counterexample: with loss and device count fixed, raising latency
from `0` to `1` raises the tier from `Unknown` (rank 0) to `Excellent`
(rank 4) — the claimed monotone non-increase over **all** latency inputs is
false, because latency `0` is the no-measurement encoding. -/
theorem quality_latency_monotonicity_fails_at_zero :
    ((0 : ℚ) ≤ 1) ∧
    calculate_overall_quality 0 0 3 = .Unknown ∧
    calculate_overall_quality 1 0 3 = .Excellent ∧
    ¬ (qualityRank (calculate_overall_quality 1 0 3) ≤
        qualityRank (calculate_overall_quality 0 0 3)) := by
  norm_num [calculate_overall_quality, baseQuality, congestionDerate, qualityRank]

/-- C2 (amended): the tier stored in a tick's snapshot is a function of the
current tick alone, but it is `Unknown` only on the no-measurement paths of
a **due** probe: (a) in a due quality test whose probed target raises
(`probe = none`) the tier is `Unknown`, and likewise (b) when a due test
finds no device; (c) when the probe is skipped (disabled or interval not
elapsed) the tier is instead estimated from the current device count alone —
`Unknown` only for an empty device list, else `Good` (≤ 10 devices) or
`Fair`. -/
theorem collectQuality_tier_cases (enable due : Bool) (rot : RotState)
    (devices : List Device) (probe : ℕ → Option (ℚ × ℚ)) :
    ((enable && due) = true →
      (∀ dev, (get_next_device_for_quality_test rot devices).1 = some dev →
        probe dev.ip = none →
        (collectQuality enable due rot devices probe).overall_quality = .Unknown) ∧
      (devices = [] →
        (collectQuality enable due rot devices probe).overall_quality = .Unknown)) ∧
    ((enable && due) = false →
      (collectQuality enable due rot devices probe).overall_quality =
        (if devices = [] then .Unknown
         else if devices.length ≤ 10 then .Good else .Fair)) := by
  constructor
  · intro htest
    constructor
    · intro dev hdev hprobe
      unfold collectQuality
      rw [htest]
      simp only [if_true]
      rw [hdev]
      dsimp only
      rw [hprobe]
      simp [calculate_overall_quality]
    · intro hempty
      subst hempty
      unfold collectQuality
      rw [htest]
      have hnone : (get_next_device_for_quality_test rot ([] : List Device)).1 = none := by
        unfold get_next_device_for_quality_test
        rw [if_pos rfl]
      simp only [if_true]
      rw [hnone]
      dsimp only
      simp [calculate_overall_quality]
  · intro hskip
    unfold collectQuality
    rw [hskip]
    by_cases hempty : devices = []
    · subst hempty
      simp
    · simp only [Bool.false_eq_true, if_false, hempty, if_neg]
      simp [hempty]

unseal List.merge List.mergeSort in
/-- C2 witness: the amended theorem exercised on one-device directories —
a due probe whose target raises yields `Unknown`, a due probe over an empty
directory yields `Unknown`, and a skipped probe (quality testing disabled)
yields the device-count estimate `Good`. -/
theorem collectQuality_tier_cases_witness :
    (collectQuality true true initRotState [{ ip := 1, hostname := "A" }]
      (fun _ => none)).overall_quality = .Unknown ∧
    (collectQuality true true initRotState [] (fun _ => none)).overall_quality
      = .Unknown ∧
    (collectQuality false true initRotState [{ ip := 1, hostname := "A" }]
      (fun _ => none)).overall_quality = .Good := by
  obtain ⟨ha, _⟩ := collectQuality_tier_cases true true initRotState
    [{ ip := 1, hostname := "A" }] (fun _ => none)
  obtain ⟨hb, _⟩ := collectQuality_tier_cases true true initRotState
    ([] : List Device) (fun _ => none)
  obtain ⟨_, hc⟩ := collectQuality_tier_cases false true initRotState
    [{ ip := 1, hostname := "A" }] (fun _ => none)
  refine ⟨?_, (hb rfl).2 rfl, (hc rfl).trans (by decide)⟩
  exact (ha rfl).1 { ip := 1, hostname := "A" } (by decide) rfl

/-- C2 counterexample: a tick with quality testing disabled (probe skipped,
no latency measurement taken: `tested_device_ip = none`, `avg_latency = 0`)
over a non-empty device list records tier `Good`, not the claimed
`Unknown`. -/
theorem skipped_probe_tier_not_unknown :
    (collectQuality false false initRotState [{ ip := 1, hostname := "A" }]
      (fun _ => none)).tested_device_ip = none ∧
    (collectQuality false false initRotState [{ ip := 1, hostname := "A" }]
      (fun _ => none)).avg_latency = 0 ∧
    (collectQuality false false initRotState [{ ip := 1, hostname := "A" }]
      (fun _ => none)).overall_quality = .Good ∧
    Quality.Good ≠ .Unknown := by decide

/-- C9 (amended): for every `count ≥ 1`, `get_recent_snapshots` returns
exactly the suffix of the last `count` samples — the most recent ones, in
order — so its length never exceeds `count`.  (For `count = 0` Python's
`[-0:]` slice returns the whole history instead, see
`recent_snapshots_zero_returns_all`; aliasing of the returned list cannot be
expressed in the value model — a Python slice allocates a fresh list.) -/
theorem recent_snapshots_suffix (snapshots : List ℕ) (count : ℕ)
    (h : 1 ≤ count) :
    get_recent_snapshots snapshots count =
      snapshots.drop (snapshots.length - count) ∧
    (get_recent_snapshots snapshots count).length ≤ count := by
  have hc : ¬ (count = 0) := by omega
  have heq : get_recent_snapshots snapshots count =
      snapshots.drop (snapshots.length - count) := by
    unfold get_recent_snapshots
    by_cases hs : snapshots = []
    · subst hs
      simp
    · have hs' : snapshots.isEmpty = false := by
        cases snapshots with
        | nil => exact absurd rfl hs
        | cons a t => rfl
      rw [hs']
      simp only [Bool.false_eq_true, if_false]
      rw [if_neg hc]
  refine ⟨heq, ?_⟩
  rw [heq]
  rw [List.length_drop]
  omega

/-- C9 witness: the amended theorem at history `[10, 20, 30]` and
`count = 2`: the two most recent samples, in order. -/
theorem recent_snapshots_suffix_witness :
    get_recent_snapshots [10, 20, 30] 2 = [20, 30] ∧
    (get_recent_snapshots [10, 20, 30] 2).length ≤ 2 := by
  obtain ⟨h1, h2⟩ := recent_snapshots_suffix [10, 20, 30] 2 (by norm_num)
  exact ⟨h1.trans (by decide), h2⟩

/-- C9 counterexample: `get_recent_snapshots` with `count = 0` on a
non-empty history returns the **entire** history (Python `[-0:]` is `[0:]`),
violating "at most `n` elements" at `n = 0`. -/
theorem recent_snapshots_zero_returns_all :
    get_recent_snapshots [(10 : ℕ), 20] 0 = [10, 20] ∧
    ¬ ((get_recent_snapshots [(10 : ℕ), 20] 0).length ≤ 0) := by decide

/-- A failed tick (collection returned `None` or raised) only increments the
measurement counter. -/
theorem monitorLoopTick_failed {α : Type} (s : ServiceState α)
    (o : TickOutcome α) (ho : o.failed = true) :
    monitorLoopTick s o = { s with measurement_count := s.measurement_count + 1 } := by
  cases o with
  | ok snap => exact absurd ho (by simp [TickOutcome.failed])
  | collectFailed => rfl
  | raised => rfl

/-- C1 (amended): there is no consecutive-failure ceiling in the monitoring
loop: after **any** number of consecutive failed ticks (collection returning
`None` or raising) the loop guard and `is_running` are unchanged — a running
service keeps running — only `measurement_count` advances, and
`get_service_status` (whose record has no failure-reason field) still
reports the same `is_running`. -/
theorem failed_ticks_never_stop_loop {α : Type} (s : ServiceState α)
    (outcomes : List (TickOutcome α))
    (hfail : ∀ o ∈ outcomes, o.failed = true) :
    (runTicks s outcomes).is_running = s.is_running ∧
    (runTicks s outcomes).shutdown_requested = s.shutdown_requested ∧
    monitorLoopContinues (runTicks s outcomes) = monitorLoopContinues s ∧
    (get_service_status (runTicks s outcomes)).is_running =
      (get_service_status s).is_running ∧
    (runTicks s outcomes).snapshots = s.snapshots ∧
    (runTicks s outcomes).successful_measurements = s.successful_measurements ∧
    (runTicks s outcomes).measurement_count =
      s.measurement_count + outcomes.length := by
  induction outcomes generalizing s with
  | nil =>
    exact ⟨rfl, rfl, rfl, rfl, rfl, rfl, rfl⟩
  | cons o rest ih =>
    have ho : o.failed = true := hfail o (List.mem_cons_self o rest)
    have hrest : ∀ x ∈ rest, TickOutcome.failed x = true :=
      fun x hx => hfail x (List.mem_cons_of_mem o hx)
    have hstep : runTicks s (o :: rest) = runTicks (monitorLoopTick s o) rest := rfl
    rw [hstep, monitorLoopTick_failed s o ho]
    obtain ⟨h1, h2, h3, h4, h5, h6, h7⟩ :=
      ih { s with measurement_count := s.measurement_count + 1 } hrest
    refine ⟨h1, h2, ?_, h4, h5, h6, ?_⟩
    · rw [h3]
      rfl
    · rw [h7]
      simp only [List.length_cons]
      omega

/-- C1 witness: the amended theorem at a concrete running service and five
consecutive raising ticks. -/
theorem failed_ticks_never_stop_loop_witness :
    (get_service_status (runTicks runningService fiveRaisedTicks)).is_running =
      (get_service_status runningService).is_running ∧
    (runTicks runningService fiveRaisedTicks).measurement_count =
      runningService.measurement_count + 5 ∧
    (runTicks runningService fiveRaisedTicks).successful_measurements =
      runningService.successful_measurements := by
  obtain ⟨h1, h2, h3, h4, h5, h6, h7⟩ :=
    failed_ticks_never_stop_loop runningService fiveRaisedTicks (by decide)
  exact ⟨h4, h7, h6⟩

/-- C1 counterexample: after 5 consecutive tick failures the service still
reports `is_running = true` and the loop guard still holds — the claimed
stop-and-mark-failed at the (nonexistent) default ceiling of 5 does not
happen; the status record carries no failure reason. -/
theorem five_failures_still_running :
    (get_service_status (runTicks runningService fiveRaisedTicks)).is_running
      = true ∧
    monitorLoopContinues (runTicks runningService fiveRaisedTicks) = true ∧
    (runTicks runningService fiveRaisedTicks).measurement_count = 5 := by
  decide

/-- One insertion on a buffer within capacity keeps exactly the last `cap`
elements of the appended list. -/
theorem pushSnapshot_eq_drop {α : Type} (cap : ℕ) (h : List α) (x : α) :
    pushSnapshot cap h x = (h ++ [x]).drop ((h ++ [x]).length - cap) := by
  unfold pushSnapshot trimSnapshots
  split_ifs with hgt
  · rfl
  · have hz : (h ++ [x]).length - cap = 0 := by
      simp only [not_lt] at hgt
      omega
    rw [hz, List.drop_zero]

/-- One insertion on a buffer within capacity stays within capacity. -/
theorem pushSnapshot_length_le {α : Type} (cap : ℕ) (h : List α) (x : α) :
    (pushSnapshot cap h x).length ≤ cap := by
  rw [pushSnapshot_eq_drop cap h x, List.length_drop]
  simp only [List.length_append, List.length_cons, List.length_nil]
  omega

/-- Folding insertions from a within-capacity buffer keeps exactly the last
`cap` elements of everything seen. -/
theorem foldl_pushSnapshot_eq {α : Type} (cap : ℕ) (L : List α) :
    ∀ h : List α, h.length ≤ cap →
      L.foldl (pushSnapshot cap) h = (h ++ L).drop ((h ++ L).length - cap) := by
  induction L with
  | nil =>
    intro h hle
    simp only [List.foldl_nil, List.append_nil]
    rw [Nat.sub_eq_zero_of_le hle, List.drop_zero]
  | cons x L ih =>
    intro h hle
    rw [List.foldl_cons, ih (pushSnapshot cap h x) (pushSnapshot_length_le cap h x)]
    rw [pushSnapshot_eq_drop cap h x]
    have hd : (h ++ [x]).length - cap ≤ (h ++ [x]).length := Nat.sub_le _ _
    rw [← List.drop_append_of_le_length hd]
    rw [List.drop_drop]
    have hx : h ++ x :: L = (h ++ [x]) ++ L := by simp
    rw [hx]
    congr 1
    simp only [List.length_drop, List.length_append, List.length_cons,
      List.length_nil]
    omega

/-- C7: the snapshot history never exceeds the configured capacity 1000 —
after inserting any sequence `L` of samples into an initially empty buffer it
holds exactly the last 1000 of them — and after 1001 insertions the buffer is
`L.tail`: the oldest original sample is gone (given distinct samples) and the
newest is present (FIFO eviction). -/
theorem sample_history_capacity_fifo {α : Type} (L : List α) :
    (historyAfter 1000 L).length ≤ 1000 ∧
    historyAfter 1000 L = L.drop (L.length - 1000) ∧
    (L.length = 1001 →
      historyAfter 1000 L = L.tail ∧
      (L.Nodup → ∀ a, L.head? = some a → a ∉ historyAfter 1000 L) ∧
      (∀ b, L.getLast? = some b → b ∈ historyAfter 1000 L)) := by
  have hchar : historyAfter 1000 L = L.drop (L.length - 1000) := by
    unfold historyAfter
    rw [foldl_pushSnapshot_eq 1000 L [] (by simp)]
    simp
  refine ⟨?_, hchar, ?_⟩
  · rw [hchar, List.length_drop]
    omega
  · intro hlen
    have htail : historyAfter 1000 L = L.tail := by
      rw [hchar, hlen]
      rw [show (1001 - 1000 : ℕ) = 1 from rfl, List.drop_one]
    refine ⟨htail, ?_, ?_⟩
    · intro hnd a ha
      rw [htail]
      cases L with
      | nil => simp at ha
      | cons y t =>
        simp only [List.head?_cons, Option.some.injEq] at ha
        subst ha
        simp only [List.tail_cons]
        exact (List.nodup_cons.mp hnd).1
    · intro b hb
      rw [htail]
      cases L with
      | nil => simp at hlen
      | cons y t =>
        cases t with
        | nil => simp at hlen
        | cons z t2 =>
          rw [List.getLast?_cons_cons] at hb
          simp only [List.tail_cons]
          exact List.mem_of_mem_getLast? hb

/-- C7 witness: the 1001 distinct samples `0, …, 1000` inserted into the
capacity-1000 buffer: the length bound holds, the oldest sample `0` has been
evicted, and the newest sample `1000` is present. -/
theorem sample_history_capacity_fifo_witness :
    (historyAfter 1000 (List.range 1001)).length ≤ 1000 ∧
    0 ∉ historyAfter 1000 (List.range 1001) ∧
    1000 ∈ historyAfter 1000 (List.range 1001) := by
  obtain ⟨h1, _, h3⟩ := sample_history_capacity_fifo (List.range 1001)
  obtain ⟨_, hhead, hlast⟩ := h3 (by simp)
  refine ⟨h1, hhead (List.nodup_range 1001) 0 ?_, hlast 1000 ?_⟩
  · rw [show (1001 : ℕ) = 1000 + 1 from rfl, List.range_succ_eq_map]
    rfl
  · rw [show (1001 : ℕ) = 1000 + 1 from rfl, List.range_succ]
    exact List.getLast?_concat _

/-- Sorting by address preserves the number of devices. -/
theorem sortDevicesByIp_length (devices : List Device) :
    (sortDevicesByIp devices).length = devices.length :=
  (List.mergeSort_perm devices _).length_eq

/-- Sorting a non-empty device list yields a non-empty list. -/
theorem sortDevicesByIp_pos (devices : List Device) (hne : devices ≠ []) :
    0 < (sortDevicesByIp devices).length := by
  rw [sortDevicesByIp_length]
  cases devices with
  | nil => exact absurd rfl hne
  | cons a t => simp

/-- A selector call from a state whose remembered address list matches the
current one and whose index is in range: no reset, the device at the stored
index is returned, the index advances by one modulo the length, and the
remembered list is untouched. -/
theorem get_next_aligned (s : RotState) (devices : List Device) (hne : devices ≠ [])
    (hmap : s.last_tested_device_list.map (fun d => d.ip) =
      (sortDevicesByIp devices).map (fun d => d.ip))
    (hidx : s.quality_test_device_index < (sortDevicesByIp devices).length) :
    get_next_device_for_quality_test s devices =
      (some ((sortDevicesByIp devices).getD s.quality_test_device_index defaultDevice),
       { quality_test_device_index :=
           (s.quality_test_device_index + 1) % (sortDevicesByIp devices).length
         last_tested_device_list := s.last_tested_device_list }) := by
  unfold get_next_device_for_quality_test
  rw [if_neg hne]
  dsimp only
  rw [if_neg (by simp [hmap] : ¬ ((sortDevicesByIp devices).map (fun d => d.ip) ≠
      s.last_tested_device_list.map (fun d => d.ip)))]
  rw [if_neg (by omega : ¬ (s.quality_test_device_index ≥ (sortDevicesByIp devices).length))]

/-- A selector call on a changed membership: reset to the first sorted device
and remember the new sorted list. -/
theorem get_next_changed (s : RotState) (devices : List Device) (hne : devices ≠ [])
    (hch : (sortDevicesByIp devices).map (fun d => d.ip) ≠
      s.last_tested_device_list.map (fun d => d.ip)) :
    get_next_device_for_quality_test s devices =
      (some ((sortDevicesByIp devices).getD 0 defaultDevice),
       { quality_test_device_index := 1 % (sortDevicesByIp devices).length
         last_tested_device_list := sortDevicesByIp devices }) := by
  unfold get_next_device_for_quality_test
  rw [if_neg hne]
  dsimp only
  rw [if_pos hch]
  dsimp only
  rw [if_neg (by have := sortDevicesByIp_pos devices hne; omega :
    ¬ ((0 : ℕ) ≥ (sortDevicesByIp devices).length))]

/-- On a membership change the effective read index is `0`. -/
theorem effIndex_changed (s : RotState) (devices : List Device)
    (hch : (sortDevicesByIp devices).map (fun d => d.ip) ≠
      s.last_tested_device_list.map (fun d => d.ip)) :
    effIndex s devices = 0 := by
  unfold effIndex
  dsimp only
  rw [if_pos hch]
  split <;> rfl

/-- On stable membership with an in-range index the effective read index is
the stored index. -/
theorem effIndex_aligned (s : RotState) (devices : List Device)
    (hmap : s.last_tested_device_list.map (fun d => d.ip) =
      (sortDevicesByIp devices).map (fun d => d.ip))
    (hidx : s.quality_test_device_index < (sortDevicesByIp devices).length) :
    effIndex s devices = s.quality_test_device_index := by
  unfold effIndex
  dsimp only
  rw [if_neg (by simp [hmap] : ¬ ((sortDevicesByIp devices).map (fun d => d.ip) ≠
      s.last_tested_device_list.map (fun d => d.ip)))]
  rw [if_neg (by omega : ¬ (s.quality_test_device_index ≥ (sortDevicesByIp devices).length))]

/-- The effective read index is always in range on a non-empty device list
(this is C10's in-bounds invariant for the read). -/
theorem effIndex_lt (s : RotState) (devices : List Device) (hne : devices ≠ []) :
    effIndex s devices < (sortDevicesByIp devices).length := by
  have hpos := sortDevicesByIp_pos devices hne
  unfold effIndex
  dsimp only
  split
  · split <;> omega
  · split <;> omega

/-- Any selector call on a non-empty device list reads at the effective
index, advances the stored index to its successor modulo the length, and
leaves a remembered list whose address list matches the current sorted
one. -/
theorem get_next_parts (s : RotState) (devices : List Device) (hne : devices ≠ []) :
    (get_next_device_for_quality_test s devices).1 =
      some ((sortDevicesByIp devices).getD (effIndex s devices) defaultDevice) ∧
    (get_next_device_for_quality_test s devices).2.quality_test_device_index =
      (effIndex s devices + 1) % (sortDevicesByIp devices).length ∧
    (get_next_device_for_quality_test s devices).2.last_tested_device_list.map
      (fun d => d.ip) = (sortDevicesByIp devices).map (fun d => d.ip) := by
  by_cases hch : (sortDevicesByIp devices).map (fun d => d.ip) ≠
      s.last_tested_device_list.map (fun d => d.ip)
  · rw [get_next_changed s devices hne hch, effIndex_changed s devices hch]
    exact ⟨rfl, rfl, rfl⟩
  · push_neg at hch
    by_cases hidx : s.quality_test_device_index < (sortDevicesByIp devices).length
    · rw [get_next_aligned s devices hne hch.symm hidx,
        effIndex_aligned s devices hch.symm hidx]
      exact ⟨rfl, rfl, hch.symm⟩
    · have hpos := sortDevicesByIp_pos devices hne
      have heff : effIndex s devices = 0 := by
        unfold effIndex
        dsimp only
        rw [if_neg (by simp [hch] : ¬ ((sortDevicesByIp devices).map (fun d => d.ip) ≠
            s.last_tested_device_list.map (fun d => d.ip)))]
        rw [if_pos (by omega : s.quality_test_device_index ≥ (sortDevicesByIp devices).length)]
      have hstep : get_next_device_for_quality_test s devices =
          (some ((sortDevicesByIp devices).getD 0 defaultDevice),
           { quality_test_device_index := 1 % (sortDevicesByIp devices).length
             last_tested_device_list := s.last_tested_device_list }) := by
        unfold get_next_device_for_quality_test
        rw [if_neg hne]
        dsimp only
        rw [if_neg (by simp [hch] : ¬ ((sortDevicesByIp devices).map (fun d => d.ip) ≠
            s.last_tested_device_list.map (fun d => d.ip)))]
        rw [if_pos (by omega : s.quality_test_device_index ≥ (sortDevicesByIp devices).length)]
      rw [hstep, heff]
      exact ⟨rfl, rfl, hch.symm⟩

/-- Runs starting from an aligned state (remembered addresses match, index in
range) walk the sorted list cyclically from the stored index and never touch
the remembered list. -/
theorem runRoundRobin_aligned (devices : List Device) (hne : devices ≠ []) :
    ∀ (n : ℕ) (s : RotState),
      s.last_tested_device_list.map (fun d => d.ip) =
        (sortDevicesByIp devices).map (fun d => d.ip) →
      s.quality_test_device_index < (sortDevicesByIp devices).length →
      (runRoundRobin s devices n).1 =
        (List.range n).map (fun j =>
          (sortDevicesByIp devices).getD
            ((s.quality_test_device_index + j) % (sortDevicesByIp devices).length)
            defaultDevice) ∧
      (runRoundRobin s devices n).2.last_tested_device_list =
        s.last_tested_device_list := by
  intro n
  induction n with
  | zero =>
    intro s hmap hidx
    exact ⟨rfl, rfl⟩
  | succ n ih =>
    intro s hmap hidx
    have hpos := sortDevicesByIp_pos devices hne
    have hstep := get_next_aligned s devices hne hmap hidx
    have hidx2 : (get_next_device_for_quality_test s devices).2.quality_test_device_index <
        (sortDevicesByIp devices).length := by
      rw [hstep]
      exact Nat.mod_lt _ hpos
    have hmap2 : (get_next_device_for_quality_test s devices).2.last_tested_device_list.map
        (fun d => d.ip) = (sortDevicesByIp devices).map (fun d => d.ip) := by
      rw [hstep]
      exact hmap
    obtain ⟨h1, h2⟩ := ih (get_next_device_for_quality_test s devices).2 hmap2 hidx2
    have hrun : runRoundRobin s devices (n + 1) =
        ((get_next_device_for_quality_test s devices).1.toList ++
          (runRoundRobin (get_next_device_for_quality_test s devices).2 devices n).1,
         (runRoundRobin (get_next_device_for_quality_test s devices).2 devices n).2) := rfl
    rw [hrun]
    constructor
    · dsimp only
      rw [h1, hstep]
      dsimp only
      rw [List.range_succ_eq_map, List.map_cons, List.map_map]
      simp only [Option.toList_some, List.singleton_append]
      congr 1
      · rw [Nat.add_zero, Nat.mod_eq_of_lt hidx]
      · apply List.map_congr_left
        intro j hj
        simp only [Function.comp]
        congr 1
        rw [Nat.mod_add_mod]
        congr 1
        omega
    · dsimp only
      rw [h2, hstep]

/-- A run of `n + 1` selector calls from **any** state walks the sorted list
cyclically from the effective index of the first call. -/
theorem runRoundRobin_rotation (s : RotState) (devices : List Device)
    (hne : devices ≠ []) (n : ℕ) :
    (runRoundRobin s devices (n + 1)).1 =
      (List.range (n + 1)).map (fun j =>
        (sortDevicesByIp devices).getD
          ((effIndex s devices + j) % (sortDevicesByIp devices).length)
          defaultDevice) := by
  have hpos := sortDevicesByIp_pos devices hne
  have heff := effIndex_lt s devices hne
  obtain ⟨h1, h2, h3⟩ := get_next_parts s devices hne
  obtain ⟨k1, _⟩ := runRoundRobin_aligned devices hne n
    (get_next_device_for_quality_test s devices).2 h3 (by rw [h2]; exact Nat.mod_lt _ hpos)
  have hrun : runRoundRobin s devices (n + 1) =
      ((get_next_device_for_quality_test s devices).1.toList ++
        (runRoundRobin (get_next_device_for_quality_test s devices).2 devices n).1,
       (runRoundRobin (get_next_device_for_quality_test s devices).2 devices n).2) := rfl
  rw [hrun]
  dsimp only
  rw [h1, k1, h2]
  rw [List.range_succ_eq_map, List.map_cons, List.map_map]
  simp only [Option.toList_some, List.singleton_append]
  congr 1
  · rw [Nat.add_zero, Nat.mod_eq_of_lt heff]
  · apply List.map_congr_left
    intro j hj
    simp only [Function.comp]
    congr 1
    rw [Nat.mod_add_mod]
    congr 1
    omega

/-- Reading a list cyclically from offset `i` over one full period is its
`i`-th rotation. -/
theorem range_map_getD_rotate (S : List Device) (i : ℕ) (hi : i < S.length) :
    (List.range S.length).map (fun j =>
      S.getD ((i + j) % S.length) defaultDevice) = S.rotate i := by
  have hpos : 0 < S.length := lt_of_le_of_lt (Nat.zero_le i) hi
  apply List.ext_getElem
  · simp [List.length_rotate]
  · intro j h1 h2
    have hj : j < S.length := by
      simpa using h1
    have hmod : (i + j) % S.length < S.length := Nat.mod_lt _ hpos
    simp only [List.getElem_map, List.getElem_range, List.getElem_rotate]
    rw [List.getD_eq_getElem S defaultDevice hmod]
    simp only [Nat.add_comm i j]

/-- The address sort really sorts: pairwise non-decreasing addresses. -/
theorem sortDevicesByIp_sorted (devices : List Device) :
    (sortDevicesByIp devices).Pairwise (fun a b => a.ip ≤ b.ip) := by
  have htrans : ∀ a b c : Device, (fun x y : Device => decide (x.ip ≤ y.ip)) a b = true →
      (fun x y : Device => decide (x.ip ≤ y.ip)) b c = true →
      (fun x y : Device => decide (x.ip ≤ y.ip)) a c = true := by
    intro a b c hab hbc
    simp only [decide_eq_true_eq] at *
    omega
  have htotal : ∀ a b : Device, ((fun x y : Device => decide (x.ip ≤ y.ip)) a b ||
      (fun x y : Device => decide (x.ip ≤ y.ip)) b a) = true := by
    intro a b
    rcases Nat.le_total a.ip b.ip with h | h <;> simp [h]
  have hs := @List.sorted_mergeSort Device (fun x y => decide (x.ip ≤ y.ip))
    htrans htotal devices
  exact hs.imp (by intro a b hab; simpa using hab)

/-- C6 (amended): over `K = len(sorted(devices))` consecutive calls with
stable non-empty membership, the selector returns a **rotation** of the
address-sorted device list — every device exactly once (given distinct
devices) before any repeat, in cyclic address-sorted order starting from the
cursor — and exactly the address-sorted order `A, B, C, …` followed by the
first device again when the membership differs from what the selector last
saw (first use included).  Mid-cycle the `K` calls need not start at the
smallest address, see `round_robin_midcycle_not_sorted`. -/
theorem round_robin_cycle (s : RotState) (devices : List Device) (hne : devices ≠ []) :
    (sortDevicesByIp devices).Pairwise (fun a b => a.ip ≤ b.ip) ∧
    (sortDevicesByIp devices).Perm devices ∧
    (runRoundRobin s devices (sortDevicesByIp devices).length).1 =
      (sortDevicesByIp devices).rotate (effIndex s devices) ∧
    ((runRoundRobin s devices (sortDevicesByIp devices).length).1).Perm
      (sortDevicesByIp devices) ∧
    (devices.Nodup → ∀ d ∈ devices,
      ((runRoundRobin s devices (sortDevicesByIp devices).length).1).count d = 1) ∧
    ((sortDevicesByIp devices).map (fun d => d.ip) ≠
        s.last_tested_device_list.map (fun d => d.ip) →
      (runRoundRobin s devices ((sortDevicesByIp devices).length + 1)).1 =
        sortDevicesByIp devices ++
          [(sortDevicesByIp devices).getD 0 defaultDevice]) := by
  have hpos := sortDevicesByIp_pos devices hne
  have heff := effIndex_lt s devices hne
  have hrot : (runRoundRobin s devices (sortDevicesByIp devices).length).1 =
      (sortDevicesByIp devices).rotate (effIndex s devices) := by
    obtain ⟨m, hm⟩ : ∃ m, (sortDevicesByIp devices).length = m + 1 :=
      ⟨(sortDevicesByIp devices).length - 1, by omega⟩
    rw [hm, runRoundRobin_rotation s devices hne m, ← hm]
    exact range_map_getD_rotate (sortDevicesByIp devices) (effIndex s devices) heff
  have hrunperm : ((runRoundRobin s devices (sortDevicesByIp devices).length).1).Perm
      (sortDevicesByIp devices) := by
    rw [hrot]
    exact List.rotate_perm _ _
  refine ⟨sortDevicesByIp_sorted devices, List.mergeSort_perm devices _, hrot,
    hrunperm, ?_, ?_⟩
  · intro hnd d hd
    have hsp : (sortDevicesByIp devices).Perm devices :=
      List.mergeSort_perm devices _
    rw [hrunperm.count_eq, hsp.count_eq]
    exact List.count_eq_one_of_mem hnd hd
  · intro hch
    have h0 : effIndex s devices = 0 := effIndex_changed s devices hch
    rw [runRoundRobin_rotation s devices hne (sortDevicesByIp devices).length, h0]
    rw [List.range_succ, List.map_append]
    congr 1
    · have hrw := range_map_getD_rotate (sortDevicesByIp devices) 0 hpos
      rw [List.rotate_zero] at hrw
      exact hrw
    · simp only [List.map_cons, List.map_nil]
      rw [Nat.zero_add, Nat.mod_self]

unseal List.merge List.mergeSort in
/-- C6 witness: from a fresh selector over the unsorted three-device
directory, three calls return each device exactly once (a permutation of the
sorted list), and because the membership differs from the fresh empty state,
four calls return exactly sorted order `A, B, C` and then `A` again. -/
theorem round_robin_cycle_witness :
    ((runRoundRobin initRotState threeDevices 3).1).Perm
      (sortDevicesByIp threeDevices) ∧
    (∀ d ∈ threeDevices,
      ((runRoundRobin initRotState threeDevices 3).1).count d = 1) ∧
    (runRoundRobin initRotState threeDevices 4).1 =
      sortDevicesByIp threeDevices ++
        [(sortDevicesByIp threeDevices).getD 0 defaultDevice] := by
  obtain ⟨hs, hp, hrot, hperm, hcount, hreset⟩ :=
    round_robin_cycle initRotState threeDevices (by decide)
  have hK : (sortDevicesByIp threeDevices).length = 3 := by decide
  rw [hK] at hperm hcount hreset
  exact ⟨hperm, hcount (by decide), hreset (by decide)⟩

unseal List.merge List.mergeSort in
/-- C6 counterexample: after one prior call (cursor mid-cycle) over the
stable directory `[A, B, C]`, the next three calls — membership unchanged
throughout — return `B, C, A`: every device exactly once, but **not** in
address-sorted order as the claim universally asserts. -/
theorem round_robin_midcycle_not_sorted :
    (runRoundRobin (get_next_device_for_quality_test initRotState sortedABC).2
        sortedABC 3).1 =
      [{ ip := 2, hostname := "B" }, { ip := 3, hostname := "C" },
       { ip := 1, hostname := "A" }] ∧
    sortDevicesByIp sortedABC = sortedABC ∧
    ¬ ((runRoundRobin (get_next_device_for_quality_test initRotState sortedABC).2
        sortedABC 3).1 = sortDevicesByIp sortedABC) := by decide

/-- C10: after any selector call with a non-empty device list the stored
cursor index is strictly below the sorted list's length (it is advanced
modulo that length; `0 ≤ index` holds by the `ℕ` type), and is returned with
a selected device; a call with an empty device list returns `none` and
leaves the whole selector state — cursor index and remembered device list —
unchanged. -/
theorem cursor_index_invariant (s : RotState) (devices : List Device) :
    (devices ≠ [] →
      (get_next_device_for_quality_test s devices).2.quality_test_device_index <
        (sortDevicesByIp devices).length ∧
      (get_next_device_for_quality_test s devices).1.isSome = true) ∧
    (devices = [] →
      get_next_device_for_quality_test s devices = (none, s)) := by
  constructor
  · intro hne
    obtain ⟨h1, h2, h3⟩ := get_next_parts s devices hne
    constructor
    · rw [h2]
      exact Nat.mod_lt _ (sortDevicesByIp_pos devices hne)
    · rw [h1]
      rfl
  · intro hempty
    subst hempty
    unfold get_next_device_for_quality_test
    rw [if_pos rfl]

unseal List.merge List.mergeSort in
/-- C10 witness: the invariant at the fresh state over the concrete
three-device directory, and the empty-directory no-op. -/
theorem cursor_index_invariant_witness :
    ((get_next_device_for_quality_test initRotState threeDevices).2.quality_test_device_index <
      (sortDevicesByIp threeDevices).length ∧
     (get_next_device_for_quality_test initRotState threeDevices).1.isSome = true) ∧
    get_next_device_for_quality_test initRotState [] = (none, initRotState) := by
  obtain ⟨h1, _⟩ := cursor_index_invariant initRotState threeDevices
  obtain ⟨_, h4⟩ := cursor_index_invariant initRotState []
  exact ⟨h1 (by decide), h4 rfl⟩

end NetworkTracker
